/-
Verification of the Alert Dispatch Pipeline of the Anomalyze notification
service (backend/services/notification-service).  The definitions below are a
shallow embedding of the TypeScript sources:

  * src/services/subscription.service.ts  (getUserContext, canSendNotification)
  * src/services/deduplication.service.ts (shouldSendAlert)
  * src/services/email.service.ts, sms.service.ts, call.service.ts,
    webhook.service.ts                     (channel adapters)
  * src/kafka/consumer.ts                  (retry, eachMessage orchestrator)

External effects (Redis, Postgres, SMTP/Twilio/HTTP providers, Kafka) are
modelled as explicit environment parameters and state passing; JavaScript
falsy/nullish defaulting is modelled explicitly.
-/
import Mathlib

set_option maxRecDepth 100000

namespace Anomalyze

/-! ## Basic enums (prisma schema: Severity, SubscriptionPlan) -/

inductive Severity
  | LOW
  | MEDIUM
  | HIGH
  | CRITICAL
deriving DecidableEq, Repr

inductive Plan
  | FREE
  | BASIC
  | PRO
deriving DecidableEq, Repr

inductive Channel
  | EMAIL
  | SMS
  | VOICE
deriving DecidableEq, Repr

/-- JavaScript `a || b` on an optional string: `null`/`undefined` and the
empty string are falsy and fall through to the default. -/
def jsOrStr (a : Option String) (b : String) : String :=
  match a with
  | some s => if s = "" then b else s
  | none => b

/-- JavaScript `a || null` on an optional string: an empty string collapses
to `null`. -/
def jsFalsyToNone (a : Option String) : Option String :=
  match a with
  | some s => if s = "" then none else some s
  | none => none

/-! ## UserContext (subscription.service.ts) -/

/-- The `features` JSON blob of a subscription row; only the `sms` key is
ever consulted (`features && features.sms === true`). -/
structure FeatureFlags where
  sms : Option Bool
deriving DecidableEq, Repr

structure Settings where
  emailEnabled : Bool
  phoneEnabled : Bool
  minSeverityForCall : Severity
deriving DecidableEq, Repr

structure UserContext where
  userId : String
  email : Option String
  phone : Option String
  plan : Plan
  features : FeatureFlags
  settings : Settings
deriving DecidableEq, Repr

/-! ### Database rows feeding getUserContext -/

structure NotificationSettingsRow where
  phoneNumber : Option String
  emailEnabled : Option Bool
  phoneEnabled : Option Bool
  minSeverityForCall : Option Severity
deriving Repr

structure SubscriptionRow where
  plan : Option Plan
  features : Option FeatureFlags
deriving Repr

structure UserRow where
  id : String
  email : Option String
  subscription : Option SubscriptionRow
  notificationSettings : Option NotificationSettingsRow
deriving Repr

/-- Outcome of the prisma `findUnique` read: a row, no row, or a thrown
database error. -/
inductive DbAnswer
  | row (u : UserRow)
  | missing
  | dbError
deriving Repr

/-- `getUserContext` from subscription.service.ts.  The prisma read is the
`DbAnswer` argument; the `try/catch` around it maps a thrown error to
`null`, exactly like a missing user.  Field defaulting mirrors the source:
`phoneNumber || null`, `plan || 'FREE'`, `features || {}`,
`emailEnabled ?? true`, `phoneEnabled ?? false`,
`minSeverityForCall || 'CRITICAL'`. -/
def getUserContext (ans : DbAnswer) : Option UserContext :=
  match ans with
  | .dbError => none
  | .missing => none
  | .row u =>
    some
      { userId := u.id
        email := u.email
        phone := jsFalsyToNone (u.notificationSettings.bind (·.phoneNumber))
        plan := ((u.subscription.bind (·.plan)).getD .FREE)
        features := ((u.subscription.bind (·.features)).getD ⟨none⟩)
        settings :=
          { emailEnabled := ((u.notificationSettings.bind (·.emailEnabled)).getD true)
            phoneEnabled := ((u.notificationSettings.bind (·.phoneEnabled)).getD false)
            minSeverityForCall :=
              ((u.notificationSettings.bind (·.minSeverityForCall)).getD .CRITICAL) } }

/-- `canSendNotification` from subscription.service.ts: pure gate deciding
whether a channel is permitted for a user context at a severity. -/
def canSendNotification (context : UserContext) (channel : Channel)
    (severity : Severity) : Bool :=
  match channel with
  | .EMAIL => context.settings.emailEnabled
  | .SMS =>
    if !context.settings.phoneEnabled then false
    else if context.plan = .PRO then true
    else if context.features.sms = some true then true
    else false
  | .VOICE =>
    if context.plan ≠ .PRO then false
    else if severity ≠ .CRITICAL then false
    else true

/-! ## Duplicate guard (deduplication.service.ts) -/

def DEDUP_TTL_SECONDS : Nat := 3600

/-- State of the ioredis client as seen by `shouldSendAlert`:
`redis === null` or `redis.status !== 'ready'` are the unavailable cases. -/
inductive RedisStatus
  | ready
  | notReady
  | clientNull
deriving DecidableEq, Repr

structure DedupEnv where
  status : RedisStatus
  /-- whether the `redis.set(..., 'NX')` call throws for this invocation -/
  setThrows : Bool
deriving Repr

/-- The Redis keyspace relevant to deduplication: keys with their absolute
expiry second.  A key is live at `now` while `now < expiry`. -/
structure CacheState where
  entries : List (String × Nat)
deriving Repr

def keyLive (cache : CacheState) (now : Nat) (key : String) : Bool :=
  cache.entries.any (fun e => e.1 = key && decide (now < e.2))

def dedupCacheKey (userId txId : String) : String :=
  "alert:" ++ userId ++ ":" ++ txId

/-- `shouldSendAlert(userId, txId)` from deduplication.service.ts.  Returns
the boolean result together with the cache state after the call.
Fail-open branches: client unavailable / not ready, and a thrown `set`. -/
def shouldSendAlert (env : DedupEnv) (cache : CacheState) (now : Nat)
    (userId txId : String) : Bool × CacheState :=
  if env.status ≠ .ready then (true, cache)
  else
    let key := dedupCacheKey userId txId
    if env.setThrows then (true, cache)
    else if keyLive cache now key then (false, cache)
    else (true, ⟨(key, now + DEDUP_TTL_SECONDS) :: cache.entries⟩)

/-! ## Retry wrapper (consumer.ts lines 25–52) -/

def MAX_RETRIES : Nat := 3
def BACKOFF_BASE_MS : Nat := 2000

/-- Trace-level model of `retry<T>(fn, retries, backoffMs)` from consumer.ts.
`fn i` is the outcome of the i-th invocation of the wrapped operation
(0-indexed).  `remaining` is `retries - attempt`: in the source, the i-th
failure sets `attempt := i + 1` and re-throws when `attempt > retries`.
Returns `(result, number of invocations, backoff waits in ms)`; the wait
list records the sleeps performed between invocations (the backoff doubles
after every failure). -/
def retryFrom {α : Type} (fn : Nat → Except String α) (i remaining backoffMs : Nat) :
    Except String α × Nat × List Nat :=
  match fn i with
  | .ok a => (.ok a, i + 1, [])
  | .error e =>
    match remaining with
    | 0 => (.error e, i + 1, [])
    | r + 1 =>
      let res := retryFrom fn (i + 1) r (backoffMs * 2)
      (res.1, res.2.1, backoffMs :: res.2.2)

/-- `retry(fn)` with the default budget (`MAX_RETRIES = 3`,
`BACKOFF_BASE_MS = 2000`). -/
def retryRun {α : Type} (fn : Nat → Except String α) :
    Except String α × Nat × List Nat :=
  retryFrom fn 0 MAX_RETRIES BACKOFF_BASE_MS

/-! ## Channel adapters

Each adapter is an async function that *catches its own provider errors*
(`try { ... } catch (err) { console.error(...) }`) and resolves normally,
so toward the caller it returns `Except.ok` of a logged outcome.  The
environment records whether provider credentials are configured and whether
the provider call for a given invocation fails. -/

inductive SendOutcome
  | loggedOnly
  | sent
  | sendFailedLogged
  | non2xxLogged
deriving DecidableEq, Repr

/-- email.service.ts `sendEmailNotification`: no transporter ⇒ log-only
no-op; a thrown `sendMail` is caught and logged. -/
def sendEmailNotification (configured : Bool) (providerFails : Bool) :
    Except String SendOutcome :=
  if !configured then .ok .loggedOnly
  else if providerFails then .ok .sendFailedLogged
  else .ok .sent

/-- sms.service.ts `sendSmsNotification`: no Twilio client or no
`TWILIO_PHONE_NUMBER` ⇒ log-only no-op; a thrown `messages.create` is
caught and logged. -/
def sendSmsNotification (configured : Bool) (fromNumberSet : Bool)
    (providerFails : Bool) : Except String SendOutcome :=
  if !configured then .ok .loggedOnly
  else if !fromNumberSet then .ok .loggedOnly
  else if providerFails then .ok .sendFailedLogged
  else .ok .sent

/-- call.service.ts `makeCallNotification`: no Twilio client ⇒ log-only
no-op; a thrown `calls.create` is caught and logged. -/
def makeCallNotification (configured : Bool) (providerFails : Bool) :
    Except String SendOutcome :=
  if !configured then .ok .loggedOnly
  else if providerFails then .ok .sendFailedLogged
  else .ok .sent

/-! ## SHA-256 and HMAC (webhook.service.ts `generateSignature`)

The source delegates to Node's `crypto.createHmac('sha256', secret)`.  We
embed standard SHA-256 (FIPS 180-4) and HMAC (RFC 2104) over byte lists,
with 32-bit words as `Nat` reduced mod 2^32, and validate the embedding
against published test vectors below. -/

def M32 : Nat := 4294967296

def add32 (a b : Nat) : Nat := (a + b) % M32

def rotr32 (n x : Nat) : Nat := ((x >>> n) ||| (x <<< (32 - n))) % M32

def not32 (x : Nat) : Nat := 4294967295 ^^^ x

def smallSigma0 (x : Nat) : Nat := (rotr32 7 x) ^^^ (rotr32 18 x) ^^^ (x >>> 3)

def smallSigma1 (x : Nat) : Nat := (rotr32 17 x) ^^^ (rotr32 19 x) ^^^ (x >>> 10)

def bigSigma0 (x : Nat) : Nat := (rotr32 2 x) ^^^ (rotr32 13 x) ^^^ (rotr32 22 x)

def bigSigma1 (x : Nat) : Nat := (rotr32 6 x) ^^^ (rotr32 11 x) ^^^ (rotr32 25 x)

def chFn (e f g : Nat) : Nat := (e &&& f) ^^^ ((not32 e) &&& g)

def majFn (a b c : Nat) : Nat := (a &&& b) ^^^ (a &&& c) ^^^ (b &&& c)

/-- The 64 round constants of FIPS 180-4 §4.2.2 (decimal). -/
def sha256K : List Nat :=
  [1116352408, 1899447441, 3049323471, 3921009573, 961987163, 1508970993,
   2453635748, 2870763221, 3624381080, 310598401, 607225278, 1426881987,
   1925078388, 2162078206, 2614888103, 3248222580, 3835390401, 4022224774,
   264347078, 604807628, 770255983, 1249150122, 1555081692, 1996064986,
   2554220882, 2821834349, 2952996808, 3210313671, 3336571891, 3584528711,
   113926993, 338241895, 666307205, 773529912, 1294757372, 1396182291,
   1695183700, 1986661051, 2177026350, 2456956037, 2730485921, 2820302411,
   3259730800, 3345764771, 3516065817, 3600352804, 4094571909, 275423344,
   430227734, 506948616, 659060556, 883997877, 958139571, 1322822218,
   1537002063, 1747873779, 1955562222, 2024104815, 2227730452, 2361852424,
   2428436474, 2756734187, 3204031479, 3329325298]

/-- The initial hash state of FIPS 180-4 §5.3.3 (decimal). -/
def sha256H0 : List Nat :=
  [1779033703, 3144134277, 1013904242, 2773480762,
   1359893119, 2600822924, 528734635, 1541459225]

/-- Big-endian 32-bit words from a byte list (length a multiple of 4). -/
def wordsOfBytes : List Nat → List Nat
  | b0 :: b1 :: b2 :: b3 :: rest =>
    (((b0 * 256 + b1) * 256 + b2) * 256 + b3) :: wordsOfBytes rest
  | _ => []

/-- Extend the 16-word message schedule by `n` further words. -/
def extendW (w : List Nat) : Nat → List Nat
  | 0 => w
  | n + 1 =>
    let len := w.length
    let newWord :=
      add32 (add32 (w.getD (len - 16) 0) (smallSigma0 (w.getD (len - 15) 0)))
        (add32 (w.getD (len - 7) 0) (smallSigma1 (w.getD (len - 2) 0)))
    extendW (w ++ [newWord]) n

/-- One compression round; the state is the word list `[a,b,c,d,e,f,g,h]`. -/
def sha256Round (state : List Nat) (kw : Nat × Nat) : List Nat :=
  match state with
  | [a, b, c, d, e, f, g, h] =>
    let t1 := add32 (add32 (add32 h (bigSigma1 e)) (add32 (chFn e f g) kw.1)) kw.2
    let t2 := add32 (bigSigma0 a) (majFn a b c)
    [add32 t1 t2, a, b, c, add32 d t1, e, f, g]
  | s => s

/-- Process one 64-byte block, updating the 8-word hash state. -/
def sha256Block (h : List Nat) (block : List Nat) : List Nat :=
  let w := extendW (wordsOfBytes block) 48
  let state := (w.zip sha256K).foldl sha256Round h
  (h.zip state).map (fun p => add32 p.1 p.2)

def be64 (n : Nat) : List Nat :=
  [(n >>> 56) % 256, (n >>> 48) % 256, (n >>> 40) % 256, (n >>> 32) % 256,
   (n >>> 24) % 256, (n >>> 16) % 256, (n >>> 8) % 256, n % 256]

def padMessage (msg : List Nat) : List Nat :=
  let padZeros := (119 - msg.length % 64) % 64
  msg ++ [0x80] ++ List.replicate padZeros 0 ++ be64 (msg.length * 8)

/-- Split a list into 64-byte chunks (fuelled by the list length). -/
def chunks64Go : List Nat → Nat → List (List Nat)
  | [], _ => []
  | _, 0 => []
  | l, fuel + 1 => l.take 64 :: chunks64Go (l.drop 64) fuel

def chunks64 (l : List Nat) : List (List Nat) := chunks64Go l l.length

def wordBytes (w : Nat) : List Nat :=
  [(w >>> 24) % 256, (w >>> 16) % 256, (w >>> 8) % 256, w % 256]

/-- SHA-256 digest (32 bytes) of a byte list. -/
def sha256Bytes (msg : List Nat) : List Nat :=
  ((chunks64 (padMessage msg)).foldl sha256Block sha256H0).flatMap wordBytes

/-- HMAC-SHA256 (RFC 2104, block size 64) over byte lists. -/
def hmacSha256Bytes (key msg : List Nat) : List Nat :=
  let k0 := if key.length > 64 then sha256Bytes key else key
  let k := k0 ++ List.replicate (64 - k0.length) 0
  let ipadKey := k.map (fun b => b ^^^ 0x36)
  let opadKey := k.map (fun b => b ^^^ 0x5c)
  sha256Bytes (opadKey ++ sha256Bytes (ipadKey ++ msg))

/-- UTF-8 encoding of one character (as Node's `utf8` encoding does). -/
def charUtf8 (c : Char) : List Nat :=
  let n := c.toNat
  if n < 0x80 then [n]
  else if n < 0x800 then [0xc0 ||| (n >>> 6), 0x80 ||| (n &&& 0x3f)]
  else if n < 0x10000 then
    [0xe0 ||| (n >>> 12), 0x80 ||| ((n >>> 6) &&& 0x3f), 0x80 ||| (n &&& 0x3f)]
  else
    [0xf0 ||| (n >>> 18), 0x80 ||| ((n >>> 12) &&& 0x3f),
     0x80 ||| ((n >>> 6) &&& 0x3f), 0x80 ||| (n &&& 0x3f)]

def strBytes (s : String) : List Nat := s.data.flatMap charUtf8

def hexDigit (n : Nat) : Char :=
  if n < 10 then Char.ofNat (48 + n) else Char.ofNat (87 + n)

def bytesToHex (bytes : List Nat) : String :=
  String.mk (bytes.flatMap (fun b => [hexDigit (b / 16), hexDigit (b % 16)]))

def sha256Hex (s : String) : String := bytesToHex (sha256Bytes (strBytes s))

def hmacSha256Hex (key msg : String) : String :=
  bytesToHex (hmacSha256Bytes (strBytes key) (strBytes msg))

/-! ## Webhook service (webhook.service.ts) -/

/-- `generateSignature(payload, secret)`:
`crypto.createHmac('sha256', secret).update(payload, 'utf8').digest('hex')`. -/
def generateSignature (payload secret : String) : String :=
  hmacSha256Hex secret payload

structure WebhookRequest where
  url : String
  body : String
  headers : List (String × String)
deriving DecidableEq, Repr

/-- The HTTP request assembled by `sendWebhookNotification` in
webhook.service.ts (lines 33–56): `bodyString` is `JSON.stringify(data)` and
`timestamp` is `Date.now().toString()`; the signature headers are attached
only when a secret is configured. -/
def webhookRequestOf (url bodyString : String) (secret : Option String)
    (timestamp : String) : WebhookRequest :=
  let base := [("Content-Type", "application/json"),
               ("X-Webhook-Timestamp", timestamp)]
  match secret with
  | some s =>
    { url := url, body := bodyString,
      headers := base ++
        [("X-Webhook-Signature", generateSignature (timestamp ++ "." ++ bodyString) s),
         ("X-Webhook-Signature-Version", "v1")] }
  | none => { url := url, body := bodyString, headers := base }

/-- The delivery part of `sendWebhookNotification`: `axios.post` with
`validateStatus: () => true` (a non-2xx status is not an error), and a
`try/catch` that logs a thrown network error — so the adapter always
resolves. -/
def sendWebhookNotification (networkFails : Bool) (status : Nat) :
    Except String SendOutcome :=
  if networkFails then .ok .sendFailedLogged
  else if 200 ≤ status && status < 300 then .ok .sent
  else .ok .non2xxLogged

/-! ## Dispatch orchestrator (consumer.ts `eachMessage`) -/

structure AnomalyEvent where
  userId : Option String
  metaUserId : Option String
  dataTxId : Option String
  txId : Option String
  id : Option String
  severity : Option Severity
  email : Option String
  phone : Option String
  webhookUrl : Option String
deriving DecidableEq, Repr

/-- `a || b` on two optional strings, then a truthiness check on the result
(JS `const t = a || b; if (t) ...`): yields the first truthy value. -/
def firstTruthy (a b : Option String) : Option String :=
  (jsFalsyToNone a).orElse (fun _ => jsFalsyToNone b)

inductive ChannelKind
  | email
  | sms
  | webhook
  | call
deriving DecidableEq, Repr

structure SendAction where
  channel : ChannelKind
  target : String
deriving DecidableEq, Repr

/-- The alert event produced to the `alerts` topic (consumer.ts lines
166–179); `alertId` and the ISO timestamp are wall-clock values not
modelled, `severity` is the raw event field. -/
structure AuditRecord where
  userId : String
  severity : Option Severity
  chEmail : Bool
  chSms : Bool
  chWebhook : Bool
  chCall : Bool
  sourceEvent : AnomalyEvent
deriving DecidableEq, Repr

/-- Provider environment for one event's channel phase: configuration flags
and the per-invocation provider outcomes. -/
structure ChannelEnv where
  emailConfigured : Bool
  emailProviderFails : Nat → Bool
  smsConfigured : Bool
  smsFromNumberSet : Bool
  smsProviderFails : Nat → Bool
  webhookNetworkFails : Nat → Bool
  webhookStatus : Nat → Nat
  callConfigured : Bool
  callProviderFails : Nat → Bool
  produceThrows : Bool

/-- Observable outcome of processing one message past the dedup gate:
sends attempted, audit emissions attempted, and the error swallowed by the
outer `try/catch` (if any step threw). -/
structure PhaseOut where
  sends : List SendAction
  audits : List AuditRecord
  caughtError : Option String
deriving Repr

/-- One guarded channel attempt in `eachMessage`: if permitted and a target
is present, the adapter is invoked through `retry`; a send attempt is
recorded, and an error escaping `retry` is propagated (to the outer
`try/catch`). -/
def attemptChannel (permitted : Bool) (target : Option String) (k : ChannelKind)
    (adapter : Nat → Except String SendOutcome) : List SendAction × Option String :=
  if permitted then
    match target with
    | some t =>
      match (retryRun adapter).1 with
      | .ok _ => ([⟨k, t⟩], none)
      | .error err => ([⟨k, t⟩], some err)
    | none => ([], none)
  else ([], none)

/-- `const userId = event.userId || event.meta?.user_id || 'unknown_user'`. -/
def eventUserId (e : AnomalyEvent) : String :=
  jsOrStr e.userId (jsOrStr e.metaUserId "unknown_user")

/-- `const txId = event.data?.tx_id || event.tx_id || event.id || 'unknown_tx'`. -/
def eventTxId (e : AnomalyEvent) : String :=
  jsOrStr e.dataTxId (jsOrStr e.txId (jsOrStr e.id "unknown_tx"))

/-- The four channel attempts in source order (email, SMS, webhook, call)
followed by the `produceAlertEvent` call, each `await`-ed inside the outer
`try` of `eachMessage`: a thrown error aborts the remaining steps and is
caught by the outer `catch`. -/
def channelPhase (ch : ChannelEnv) (e : AnomalyEvent) (ctx : UserContext) :
    PhaseOut :=
  let severity := e.severity.getD .MEDIUM
  let s1 := attemptChannel (canSendNotification ctx .EMAIL severity)
    (firstTruthy ctx.email e.email) .email
    (fun i => sendEmailNotification ch.emailConfigured (ch.emailProviderFails i))
  match s1 with
  | (l1, some err) => ⟨l1, [], some err⟩
  | (l1, none) =>
    let s2 := attemptChannel (canSendNotification ctx .SMS severity)
      (firstTruthy ctx.phone e.phone) .sms
      (fun i => sendSmsNotification ch.smsConfigured ch.smsFromNumberSet
        (ch.smsProviderFails i))
    match s2 with
    | (l2, some err) => ⟨l1 ++ l2, [], some err⟩
    | (l2, none) =>
      let s3 := attemptChannel (jsFalsyToNone e.webhookUrl).isSome
        (jsFalsyToNone e.webhookUrl) .webhook
        (fun i => sendWebhookNotification (ch.webhookNetworkFails i)
          (ch.webhookStatus i))
      match s3 with
      | (l3, some err) => ⟨l1 ++ l2 ++ l3, [], some err⟩
      | (l3, none) =>
        let s4 := attemptChannel (canSendNotification ctx .VOICE severity)
          (firstTruthy ctx.phone e.phone) .call
          (fun i => makeCallNotification ch.callConfigured (ch.callProviderFails i))
        match s4 with
        | (l4, some err) => ⟨l1 ++ l2 ++ l3 ++ l4, [], some err⟩
        | (l4, none) =>
          let record : AuditRecord :=
            { userId := eventUserId e
              severity := e.severity
              chEmail := canSendNotification ctx .EMAIL severity
              chSms := canSendNotification ctx .SMS severity
              chWebhook := (jsFalsyToNone e.webhookUrl).isSome
              chCall := canSendNotification ctx .VOICE severity
              sourceEvent := e }
          ⟨l1 ++ l2 ++ l3 ++ l4, [record],
            if ch.produceThrows then some "produce" else none⟩

/-- The body of the outer `try` in `eachMessage`: resolve the user context;
an unknown user is logged and dropped, otherwise run the channel phase. -/
def processAfterGate (db : String → DbAnswer) (ch : ChannelEnv)
    (e : AnomalyEvent) : PhaseOut :=
  match getUserContext (db (eventUserId e)) with
  | none => ⟨[], [], none⟩
  | some ctx => channelPhase ch e ctx

/-- The `eachMessage` handler of consumer.ts for one parsed event: derive
ids, call the dedup gate (returning early on a duplicate), then process.
The result is the cache state after the dedup call together with the
observable trace. -/
def eachMessage (denv : DedupEnv) (db : String → DbAnswer) (ch : ChannelEnv)
    (now : Nat) (cache : CacheState) (e : AnomalyEvent) : CacheState × PhaseOut :=
  let gate := shouldSendAlert denv cache now (eventUserId e) (eventTxId e)
  if gate.1 = false then (gate.2, ⟨[], [], none⟩)
  else (gate.2, processAfterGate db ch e)

/-! ## Spec-side summaries and sample inputs -/

/-- The channel sends predicted by the spec for a resolved event: one
attempt per permitted channel that has a target (webhook iff the event
carries a truthy URL), in source order. -/
def expectedSends (e : AnomalyEvent) (ctx : UserContext) : List SendAction :=
  (if canSendNotification ctx .EMAIL (e.severity.getD .MEDIUM) then
      ((firstTruthy ctx.email e.email).map (fun t => SendAction.mk .email t)).toList
    else []) ++
  ((if canSendNotification ctx .SMS (e.severity.getD .MEDIUM) then
      ((firstTruthy ctx.phone e.phone).map (fun t => SendAction.mk .sms t)).toList
    else []) ++
  ((if (jsFalsyToNone e.webhookUrl).isSome then
      ((jsFalsyToNone e.webhookUrl).map (fun t => SendAction.mk .webhook t)).toList
    else []) ++
  (if canSendNotification ctx .VOICE (e.severity.getD .MEDIUM) then
      ((firstTruthy ctx.phone e.phone).map (fun t => SendAction.mk .call t)).toList
    else [])))

/-- The audit record the spec predicts: channel flags say what was
*permitted*, not what succeeded. -/
def auditOf (e : AnomalyEvent) (ctx : UserContext) : AuditRecord :=
  { userId := eventUserId e
    severity := e.severity
    chEmail := canSendNotification ctx .EMAIL (e.severity.getD .MEDIUM)
    chSms := canSendNotification ctx .SMS (e.severity.getD .MEDIUM)
    chWebhook := (jsFalsyToNone e.webhookUrl).isSome
    chCall := canSendNotification ctx .VOICE (e.severity.getD .MEDIUM)
    sourceEvent := e }

/-- A concrete channel environment for witnesses: nothing configured, no
provider failures. -/
def cEnvSample : ChannelEnv :=
  { emailConfigured := false
    emailProviderFails := fun _ => false
    smsConfigured := false
    smsFromNumberSet := false
    smsProviderFails := fun _ => false
    webhookNetworkFails := fun _ => false
    webhookStatus := fun _ => 200
    callConfigured := false
    callProviderFails := fun _ => false
    produceThrows := false }

/-- A channel environment for witnesses where every provider call fails. -/
def cEnvFailing : ChannelEnv :=
  { emailConfigured := true
    emailProviderFails := fun _ => true
    smsConfigured := true
    smsFromNumberSet := true
    smsProviderFails := fun _ => true
    webhookNetworkFails := fun _ => true
    webhookStatus := fun _ => 500
    callConfigured := true
    callProviderFails := fun _ => true
    produceThrows := false }

/-- The user context that `getUserContext` resolves from `sampleRow`. -/
def sampleCtx : UserContext :=
  { userId := "u1"
    email := some "u1@example.com"
    phone := some "+15550001111"
    plan := .PRO
    features := ⟨none⟩
    settings :=
      { emailEnabled := true
        phoneEnabled := true
        minSeverityForCall := .CRITICAL } }

/-- A concrete inbound event for witnesses. -/
def eSample : AnomalyEvent :=
  { userId := some "u1"
    metaUserId := none
    dataTxId := some "tx1"
    txId := none
    id := none
    severity := some .CRITICAL
    email := none
    phone := none
    webhookUrl := none }

/-- A concrete user row for witnesses: PRO plan, everything enabled. -/
def sampleRow : UserRow :=
  { id := "u1"
    email := some "u1@example.com"
    subscription := some { plan := some .PRO, features := some ⟨none⟩ }
    notificationSettings := some
      { phoneNumber := some "+15550001111"
        emailEnabled := some true
        phoneEnabled := some true
        minSeverityForCall := some .CRITICAL } }

/-! ## SHA-256 / HMAC test vectors (validating the crypto embedding) -/

/-- FIPS 180-4 test vector. -/
example : sha256Hex "abc" =
    "ba7816bf8f01cfea414140de5dae2223b00361a396177a9cb410ff61f20015ad" := by
  rfl

/-- SHA-256 of the empty message. -/
example : sha256Hex "" =
    "e3b0c44298fc1c149afbf4c8996fb92427ae41e4649b934ca495991b7852b855" := by
  rfl

/-- RFC 4231 HMAC-SHA256 test case 2. -/
example : hmacSha256Hex "Jefe" "what do ya want for nothing?" =
    "5bdcc146bf60754e6a042426089575c75a003f089d2739839dec58b964ec3843" := by
  rfl

/-! ## Helper lemmas -/

theorem retryFrom_ok {α : Type} (fn : Nat → Except String α) (i r b : Nat)
    (a : α) (h : fn i = .ok a) : retryFrom fn i r b = (.ok a, i + 1, []) := by
  unfold retryFrom
  rw [h]

theorem retryFrom_count_le {α : Type} (fn : Nat → Except String α) :
    ∀ (r i b : Nat), (retryFrom fn i r b).2.1 ≤ i + 1 + r := by
  intro r
  induction r with
  | zero =>
    intro i b
    unfold retryFrom
    cases h : fn i <;> simp
  | succ r ih =>
    intro i b
    unfold retryFrom
    cases h : fn i with
    | ok a => simp
    | error e =>
      have := ih (i + 1) (b * 2)
      simp only []
      omega

theorem retryFrom_count_ge {α : Type} (fn : Nat → Except String α) :
    ∀ (r i b : Nat), i + 1 ≤ (retryFrom fn i r b).2.1 := by
  intro r
  induction r with
  | zero =>
    intro i b
    unfold retryFrom
    cases h : fn i <;> simp
  | succ r ih =>
    intro i b
    unfold retryFrom
    cases h : fn i with
    | ok a => simp
    | error e =>
      have := ih (i + 1) (b * 2)
      simp only []
      omega

theorem retryFrom_waits {α : Type} (fn : Nat → Except String α) :
    ∀ (r i b : Nat), (retryFrom fn i r b).2.2 =
      (List.range ((retryFrom fn i r b).2.1 - i - 1)).map (fun k => b * 2 ^ k) := by
  intro r
  induction r with
  | zero =>
    intro i b
    unfold retryFrom
    cases h : fn i <;> simp
  | succ r ih =>
    intro i b
    unfold retryFrom
    cases h : fn i with
    | ok a => simp
    | error e =>
      simp only []
      have hge := retryFrom_count_ge fn r (i + 1) (b * 2)
      obtain ⟨m, hm⟩ : ∃ m, (retryFrom fn (i + 1) r (b * 2)).2.1 - i - 1 = m + 1 :=
        ⟨(retryFrom fn (i + 1) r (b * 2)).2.1 - i - 2, by omega⟩
      have hm' : (retryFrom fn (i + 1) r (b * 2)).2.1 - (i + 1) - 1 = m := by omega
      rw [ih (i + 1) (b * 2), hm', hm, List.range_succ_eq_map, List.map_cons,
        List.map_map]
      congr 1
      · simp
      · exact List.map_congr_left (fun k _ => by
          simp [Function.comp, pow_succ]
          ring)

theorem retryFrom_exhaust {α : Type} (fn : Nat → Except String α) :
    ∀ (r i b : Nat), (∀ j, j ≤ i + r → (fn j).isOk = false) →
      (retryFrom fn i r b).1 = fn (i + r) ∧
      (retryFrom fn i r b).2.1 = i + r + 1 := by
  intro r
  induction r with
  | zero =>
    intro i b h
    have h0 := h i (by omega)
    unfold retryFrom
    cases hi : fn i with
    | ok a => rw [hi] at h0; simp [Except.isOk, Except.toBool] at h0
    | error e => simp [hi]
  | succ r ih =>
    intro i b h
    have h0 := h i (by omega)
    unfold retryFrom
    cases hi : fn i with
    | ok a => rw [hi] at h0; simp [Except.isOk, Except.toBool] at h0
    | error e =>
      have hrec := ih (i + 1) (b * 2) (fun j hj => h j (by omega))
      have harg : i + 1 + r = i + (r + 1) := by omega
      rw [harg] at hrec
      simp only []
      exact ⟨hrec.1, by omega⟩

/-! ## C2: the permission function -/

/-- C2: `canSendNotification` is a pure total function; EMAIL is permitted
iff `settings.emailEnabled`; SMS iff `settings.phoneEnabled` and
(`plan = PRO` or `featureFlags.sms = true`); VOICE iff `plan = PRO` and
`severity = CRITICAL`; and the stored `minSeverityForCall` setting is never
consulted (changing it changes no permission). -/
theorem canSend_spec (ctx : UserContext) (sev : Severity) :
    (canSendNotification ctx .EMAIL sev = ctx.settings.emailEnabled) ∧
    (canSendNotification ctx .SMS sev = true ↔
      ctx.settings.phoneEnabled = true ∧
        (ctx.plan = .PRO ∨ ctx.features.sms = some true)) ∧
    (canSendNotification ctx .VOICE sev = true ↔
      ctx.plan = .PRO ∧ sev = .CRITICAL) ∧
    (∀ (ch : Channel) (m : Severity),
      canSendNotification
        { ctx with settings :=
            { emailEnabled := ctx.settings.emailEnabled
              phoneEnabled := ctx.settings.phoneEnabled
              minSeverityForCall := m } } ch sev =
      canSendNotification ctx ch sev) := by
  obtain ⟨uid, em, ph, plan, ⟨fsms⟩, ee, pe, msv⟩ := ctx
  refine ⟨rfl, ?_, ?_, ?_⟩
  · cases plan <;> cases pe <;> by_cases hf : fsms = some true <;>
      simp [canSendNotification, hf]
  · cases plan <;> cases sev <;> simp [canSendNotification]
  · intro ch m
    cases ch <;> rfl

/-! ## C5: FREE-plan channel restrictions -/

/-- C5 counterexample: a FREE-plan user with `phoneEnabled` and the
`features.sms` flag set *is* permitted SMS, refuting "never permits SMS for
FREE plan". -/
theorem free_plan_sms_counterexample :
    (UserContext.mk "u1" none none .FREE ⟨some true⟩
        ⟨true, true, .CRITICAL⟩).plan = Plan.FREE ∧
    canSendNotification
      (UserContext.mk "u1" none none .FREE ⟨some true⟩ ⟨true, true, .CRITICAL⟩)
      .SMS .LOW = true :=
  ⟨rfl, rfl⟩

/-- C5 (amended): for a FREE-plan context, VOICE is never permitted, EMAIL
is permitted iff `settings.emailEnabled`, and SMS is not permitted unless
the `featureFlags.sms = true` override is present. -/
theorem free_plan_channels (ctx : UserContext) (sev : Severity)
    (hplan : ctx.plan = .FREE) :
    canSendNotification ctx .VOICE sev = false ∧
    canSendNotification ctx .EMAIL sev = ctx.settings.emailEnabled ∧
    (ctx.features.sms ≠ some true → canSendNotification ctx .SMS sev = false) := by
  refine ⟨?_, rfl, ?_⟩
  · simp [canSendNotification, hplan]
  · intro hf
    simp [canSendNotification, hplan, hf]

/-- C5 witness. -/
theorem free_plan_channels_witness :
    canSendNotification
      (UserContext.mk "u2" none none .FREE ⟨none⟩ ⟨true, true, .LOW⟩)
      .VOICE .CRITICAL = false ∧
    canSendNotification
      (UserContext.mk "u2" none none .FREE ⟨none⟩ ⟨true, true, .LOW⟩)
      .EMAIL .CRITICAL = true ∧
    ((UserContext.mk "u2" none none .FREE ⟨none⟩ ⟨true, true, .LOW⟩).features.sms
        ≠ some true →
      canSendNotification
        (UserContext.mk "u2" none none .FREE ⟨none⟩ ⟨true, true, .LOW⟩)
        .SMS .CRITICAL = false) :=
  free_plan_channels (UserContext.mk "u2" none none .FREE ⟨none⟩ ⟨true, true, .LOW⟩)
    .CRITICAL rfl

/-! ## C3: the retry wrapper -/

/-- C3 counterexample: an operation that always fails is invoked 4 times by
`retry` (1 initial attempt + `MAX_RETRIES = 3` retries), refuting "at most
3 invocations in total". -/
theorem retry_attempt_budget_counterexample :
    ¬ ((retryRun (fun _ => (Except.error "boom" : Except String String))).2.1 ≤ 3) := by
  decide

/-- C3 (amended): `retry(op)` invokes `op` at most `MAX_RETRIES + 1 = 4`
times in total (the parameter counts *retries after the first attempt*);
after the k-th failure it waits `BACKOFF_BASE_MS * 2^(k-1)` ms (2s, 4s,
8s); and when every allowed attempt fails it re-throws the error of the
last (4th) invocation. -/
theorem retry_policy (fn : Nat → Except String String) :
    ((retryRun fn).2.1 ≤ MAX_RETRIES + 1) ∧
    ((retryRun fn).2.2 =
      (List.range ((retryRun fn).2.1 - 1)).map (fun k => BACKOFF_BASE_MS * 2 ^ k)) ∧
    ((∀ j, j ≤ MAX_RETRIES → (fn j).isOk = false) →
      (retryRun fn).1 = fn MAX_RETRIES ∧
      (retryRun fn).2.1 = MAX_RETRIES + 1 ∧
      (retryRun fn).2.2 = [2000, 4000, 8000]) := by
  refine ⟨?_, ?_, ?_⟩
  · have := retryFrom_count_le fn MAX_RETRIES 0 BACKOFF_BASE_MS
    unfold retryRun
    omega
  · have := retryFrom_waits fn MAX_RETRIES 0 BACKOFF_BASE_MS
    unfold retryRun
    simpa using this
  · intro h
    have hex := retryFrom_exhaust fn MAX_RETRIES 0 BACKOFF_BASE_MS
      (fun j hj => h j (by simpa using hj))
    have hw := retryFrom_waits fn MAX_RETRIES 0 BACKOFF_BASE_MS
    unfold retryRun at hex hw ⊢
    refine ⟨by simpa using hex.1, by simpa using hex.2, ?_⟩
    rw [hw, hex.2]
    rfl

/-- C3 witness: the always-failing operation exercises the amended policy
(last error re-thrown, 4 invocations, waits 2s, 4s, 8s). -/
theorem retry_policy_witness :
    (retryRun (fun _ => (Except.error "boom" : Except String String))).1 =
        Except.error "boom" ∧
    (retryRun (fun _ => (Except.error "boom" : Except String String))).2.1 = 4 ∧
    (retryRun (fun _ => (Except.error "boom" : Except String String))).2.2 =
        [2000, 4000, 8000] :=
  (retry_policy (fun _ => Except.error "boom")).2.2 (fun _ _ => rfl)

/-! ## Orchestrator-level helper lemmas -/

theorem eachMessage_cache (denv : DedupEnv) (db : String → DbAnswer)
    (ch : ChannelEnv) (now : Nat) (cache : CacheState) (e : AnomalyEvent) :
    (eachMessage denv db ch now cache e).1 =
      (shouldSendAlert denv cache now (eventUserId e) (eventTxId e)).2 := by
  simp only [eachMessage]
  split <;> rfl

theorem eachMessage_dup (denv : DedupEnv) (db : String → DbAnswer)
    (ch : ChannelEnv) (now : Nat) (cache : CacheState) (e : AnomalyEvent)
    (h : (shouldSendAlert denv cache now (eventUserId e) (eventTxId e)).1 = false) :
    (eachMessage denv db ch now cache e).2 = ⟨[], [], none⟩ := by
  simp [eachMessage, h]

theorem shouldSendAlert_new (denv : DedupEnv) (cache : CacheState) (now : Nat)
    (uid tx : String) (hs : denv.status = .ready) (ht : denv.setThrows = false)
    (hlive : keyLive cache now (dedupCacheKey uid tx) = false) :
    shouldSendAlert denv cache now uid tx =
      (true, ⟨(dedupCacheKey uid tx, now + DEDUP_TTL_SECONDS) :: cache.entries⟩) := by
  simp [shouldSendAlert, hs, ht, hlive]

theorem shouldSendAlert_dup (denv : DedupEnv) (cache : CacheState) (now : Nat)
    (uid tx : String) (hs : denv.status = .ready) (ht : denv.setThrows = false)
    (hlive : keyLive cache now (dedupCacheKey uid tx) = true) :
    shouldSendAlert denv cache now uid tx = (false, cache) := by
  simp [shouldSendAlert, hs, ht, hlive]

theorem keyLive_cons_self (entries : List (String × Nat)) (t2 T : Nat)
    (key : String) (h : t2 < T) :
    keyLive ⟨(key, T) :: entries⟩ t2 key = true := by
  simp [keyLive, h]

/-! ## C4: fail-open duplicate guard -/

/-- C4: when the Redis client is unavailable, not ready, or the
set-if-absent write throws, `shouldSendAlert` returns `true` and leaves the
cache unchanged; consequently two identical events processed back to back
both pass the guard and produce identical traces (both proceed to the
channel sends). -/
theorem dedup_fail_open (denv : DedupEnv)
    (h : denv.status ≠ .ready ∨ denv.setThrows = true) :
    (∀ (cache : CacheState) (now : Nat) (uid tx : String),
      shouldSendAlert denv cache now uid tx = (true, cache)) ∧
    (∀ (db : String → DbAnswer) (ch : ChannelEnv) (t1 t2 : Nat)
       (cache : CacheState) (e : AnomalyEvent),
      (eachMessage denv db ch t1 cache e).1 = cache ∧
      (eachMessage denv db ch t2 (eachMessage denv db ch t1 cache e).1 e).2 =
        (eachMessage denv db ch t1 cache e).2) := by
  have hgate : ∀ (cache : CacheState) (now : Nat) (uid tx : String),
      shouldSendAlert denv cache now uid tx = (true, cache) := by
    intro cache now uid tx
    unfold shouldSendAlert
    rcases h with h | h
    · simp [h]
    · by_cases hs : denv.status = .ready
      · simp [hs, h]
      · simp [hs]
  refine ⟨hgate, ?_⟩
  intro db ch t1 t2 cache e
  have h1 : eachMessage denv db ch t1 cache e = (cache, processAfterGate db ch e) := by
    simp [eachMessage, hgate]
  have h2 : eachMessage denv db ch t2 cache e = (cache, processAfterGate db ch e) := by
    simp [eachMessage, hgate]
  rw [h1, h2]
  exact ⟨rfl, rfl⟩

/-- C4 witness: a not-ready client fail-opens on a concrete pair. -/
theorem dedup_fail_open_witness :
    shouldSendAlert ⟨.notReady, false⟩ ⟨[]⟩ 0 "u1" "tx1" = (true, ⟨[]⟩) :=
  (dedup_fail_open ⟨.notReady, false⟩ (Or.inl (by decide))).1 ⟨[]⟩ 0 "u1" "tx1"

/-! ## C10: the entitlement resolver never throws -/

/-- C10: `getUserContext` maps a thrown store read to `null` — the same
result as a missing user — and an event whose store read errors is dropped
with zero sends and zero audit emissions. -/
theorem resolver_error_dropped (denv : DedupEnv) (db : String → DbAnswer)
    (ch : ChannelEnv) (now : Nat) (cache : CacheState) (e : AnomalyEvent)
    (herr : db (eventUserId e) = .dbError) :
    getUserContext .dbError = none ∧
    getUserContext DbAnswer.dbError = getUserContext DbAnswer.missing ∧
    (eachMessage denv db ch now cache e).2.sends = [] ∧
    (eachMessage denv db ch now cache e).2.audits = [] := by
  have hp : processAfterGate db ch e = ⟨[], [], none⟩ := by
    simp [processAfterGate, herr, getUserContext]
  refine ⟨rfl, rfl, ?_⟩
  simp only [eachMessage]
  split
  · exact ⟨rfl, rfl⟩
  · rw [hp]
    exact ⟨rfl, rfl⟩

/-- C10 witness. -/
theorem resolver_error_dropped_witness :
    (eachMessage ⟨.ready, false⟩ (fun _ => .dbError) cEnvSample 0 ⟨[]⟩
        eSample).2.sends = [] ∧
    (eachMessage ⟨.ready, false⟩ (fun _ => .dbError) cEnvSample 0 ⟨[]⟩
        eSample).2.audits = [] :=
  (resolver_error_dropped ⟨.ready, false⟩ (fun _ => .dbError) cEnvSample 0 ⟨[]⟩
    eSample rfl).2.2

/-! ## C1: duplicate suppression -/

/-- C1: a duplicate report from the guard yields zero sends and zero audit
emissions, and processing the same event twice within the TTL with the
cache available yields sends in at most one of the two runs. -/
theorem duplicate_guard_at_most_once
    (denv1 denv2 : DedupEnv) (db1 db2 : String → DbAnswer) (ch1 ch2 : ChannelEnv)
    (cache : CacheState) (e : AnomalyEvent) (t1 t2 : Nat)
    (h1s : denv1.status = .ready) (h1t : denv1.setThrows = false)
    (h2s : denv2.status = .ready) (h2t : denv2.setThrows = false)
    (httl : t2 < t1 + DEDUP_TTL_SECONDS) :
    (∀ (denv : DedupEnv) (db : String → DbAnswer) (ch : ChannelEnv)
       (now : Nat) (c : CacheState) (ev : AnomalyEvent),
      (shouldSendAlert denv c now (eventUserId ev) (eventTxId ev)).1 = false →
      (eachMessage denv db ch now c ev).2.sends = [] ∧
      (eachMessage denv db ch now c ev).2.audits = []) ∧
    ((eachMessage denv1 db1 ch1 t1 cache e).2.sends = [] ∨
     (eachMessage denv2 db2 ch2 t2 (eachMessage denv1 db1 ch1 t1 cache e).1
        e).2.sends = []) := by
  constructor
  · intro denv db ch now c ev h
    rw [eachMessage_dup denv db ch now c ev h]
    exact ⟨rfl, rfl⟩
  · by_cases hlive : keyLive cache t1 (dedupCacheKey (eventUserId e) (eventTxId e)) = true
    · left
      have hdup : (shouldSendAlert denv1 cache t1 (eventUserId e) (eventTxId e)).1
          = false := by
        rw [shouldSendAlert_dup denv1 cache t1 _ _ h1s h1t hlive]
      rw [eachMessage_dup denv1 db1 ch1 t1 cache e hdup]
    · right
      have hnew := shouldSendAlert_new denv1 cache t1 (eventUserId e) (eventTxId e)
        h1s h1t (by simpa using hlive)
      have hcache : (eachMessage denv1 db1 ch1 t1 cache e).1 =
          ⟨(dedupCacheKey (eventUserId e) (eventTxId e),
            t1 + DEDUP_TTL_SECONDS) :: cache.entries⟩ := by
        rw [eachMessage_cache, hnew]
      have hlive2 : keyLive (eachMessage denv1 db1 ch1 t1 cache e).1 t2
          (dedupCacheKey (eventUserId e) (eventTxId e)) = true := by
        rw [hcache]
        exact keyLive_cons_self cache.entries t2 _ _ httl
      have hdup2 : (shouldSendAlert denv2 (eachMessage denv1 db1 ch1 t1 cache e).1
          t2 (eventUserId e) (eventTxId e)).1 = false := by
        rw [shouldSendAlert_dup denv2 _ t2 _ _ h2s h2t hlive2]
      rw [eachMessage_dup denv2 db2 ch2 t2 _ e hdup2]

/-- C1 witness: second submission of a concrete event 10 s after the first
is suppressed. -/
theorem duplicate_guard_at_most_once_witness :
    (eachMessage ⟨.ready, false⟩ (fun _ => .missing) cEnvSample 0 ⟨[]⟩
        eSample).2.sends = [] ∨
    (eachMessage ⟨.ready, false⟩ (fun _ => .missing) cEnvSample 10
        (eachMessage ⟨.ready, false⟩ (fun _ => .missing) cEnvSample 0 ⟨[]⟩
          eSample).1 eSample).2.sends = [] :=
  (duplicate_guard_at_most_once ⟨.ready, false⟩ ⟨.ready, false⟩
    (fun _ => .missing) (fun _ => .missing) cEnvSample cEnvSample ⟨[]⟩ eSample
    0 10 rfl rfl rfl rfl (by decide)).2

/-! ## C9: the lease is claimed before entitlement resolution -/

/-- C9: with the cache available and the key not yet live, an event whose
user is unknown produces zero sends and zero audit emissions yet still
consumes the one-hour lease, so an identical event within the TTL is
suppressed. -/
theorem lease_claimed_before_resolution
    (denv1 denv2 : DedupEnv) (db1 db2 : String → DbAnswer) (ch1 ch2 : ChannelEnv)
    (cache : CacheState) (e : AnomalyEvent) (t1 t2 : Nat)
    (h1s : denv1.status = .ready) (h1t : denv1.setThrows = false)
    (h2s : denv2.status = .ready) (h2t : denv2.setThrows = false)
    (hmiss : getUserContext (db1 (eventUserId e)) = none)
    (hnotlive : keyLive cache t1 (dedupCacheKey (eventUserId e) (eventTxId e)) = false)
    (httl : t2 < t1 + DEDUP_TTL_SECONDS) :
    (eachMessage denv1 db1 ch1 t1 cache e).2.sends = [] ∧
    (eachMessage denv1 db1 ch1 t1 cache e).2.audits = [] ∧
    keyLive (eachMessage denv1 db1 ch1 t1 cache e).1 t2
      (dedupCacheKey (eventUserId e) (eventTxId e)) = true ∧
    (eachMessage denv2 db2 ch2 t2 (eachMessage denv1 db1 ch1 t1 cache e).1
      e).2.sends = [] ∧
    (eachMessage denv2 db2 ch2 t2 (eachMessage denv1 db1 ch1 t1 cache e).1
      e).2.audits = [] := by
  have hnew := shouldSendAlert_new denv1 cache t1 (eventUserId e) (eventTxId e)
    h1s h1t hnotlive
  have hp : processAfterGate db1 ch1 e = ⟨[], [], none⟩ := by
    simp [processAfterGate, hmiss]
  have h1 : eachMessage denv1 db1 ch1 t1 cache e =
      (⟨(dedupCacheKey (eventUserId e) (eventTxId e),
         t1 + DEDUP_TTL_SECONDS) :: cache.entries⟩, ⟨[], [], none⟩) := by
    simp [eachMessage, hnew, hp]
  have hlive2 : keyLive (eachMessage denv1 db1 ch1 t1 cache e).1 t2
      (dedupCacheKey (eventUserId e) (eventTxId e)) = true := by
    rw [h1]
    exact keyLive_cons_self cache.entries t2 _ _ httl
  have hdup2 : (shouldSendAlert denv2 (eachMessage denv1 db1 ch1 t1 cache e).1
      t2 (eventUserId e) (eventTxId e)).1 = false := by
    rw [shouldSendAlert_dup denv2 _ t2 _ _ h2s h2t hlive2]
  have h2 := eachMessage_dup denv2 db2 ch2 t2 _ e hdup2
  rw [h1] at hlive2 ⊢
  rw [h1] at h2
  rw [h2]
  exact ⟨rfl, rfl, hlive2, rfl, rfl⟩

/-- C9 witness: concrete unknown-user event still burns the lease. -/
theorem lease_claimed_before_resolution_witness :
    (eachMessage ⟨.ready, false⟩ (fun _ => .dbError) cEnvSample 5 ⟨[]⟩
        eSample).2.sends = [] ∧
    (eachMessage ⟨.ready, false⟩ (fun _ => .dbError) cEnvSample 5 ⟨[]⟩
        eSample).2.audits = [] ∧
    keyLive (eachMessage ⟨.ready, false⟩ (fun _ => .dbError) cEnvSample 5 ⟨[]⟩
        eSample).1 20 (dedupCacheKey (eventUserId eSample) (eventTxId eSample))
      = true ∧
    (eachMessage ⟨.ready, false⟩ (fun _ => .row sampleRow) cEnvSample 20
        (eachMessage ⟨.ready, false⟩ (fun _ => .dbError) cEnvSample 5 ⟨[]⟩
          eSample).1 eSample).2.sends = [] ∧
    (eachMessage ⟨.ready, false⟩ (fun _ => .row sampleRow) cEnvSample 20
        (eachMessage ⟨.ready, false⟩ (fun _ => .dbError) cEnvSample 5 ⟨[]⟩
          eSample).1 eSample).2.audits = [] :=
  lease_claimed_before_resolution ⟨.ready, false⟩ ⟨.ready, false⟩
    (fun _ => .dbError) (fun _ => .row sampleRow) cEnvSample cEnvSample ⟨[]⟩
    eSample 5 20 rfl rfl rfl rfl rfl (by decide) (by decide)

/-! ## C6: channel-failure isolation and audit emission -/

theorem sendEmailNotification_no_throw (c f : Bool) :
    ∀ a, sendEmailNotification c f ≠ Except.error a := by
  intro a
  cases c <;> cases f <;> simp [sendEmailNotification]

theorem sendSmsNotification_no_throw (c fr f : Bool) :
    ∀ a, sendSmsNotification c fr f ≠ Except.error a := by
  intro a
  cases c <;> cases fr <;> cases f <;> simp [sendSmsNotification]

theorem makeCallNotification_no_throw (c f : Bool) :
    ∀ a, makeCallNotification c f ≠ Except.error a := by
  intro a
  cases c <;> cases f <;> simp [makeCallNotification]

theorem sendWebhookNotification_no_throw (nf : Bool) (st : Nat) :
    ∀ a, sendWebhookNotification nf st ≠ Except.error a := by
  intro a
  simp only [sendWebhookNotification]
  split
  · simp
  · split <;> simp

theorem attemptChannel_ok_eq (permitted : Bool) (target : Option String)
    (k : ChannelKind) (adapter : Nat → Except String SendOutcome)
    (h : ∀ a, adapter 0 ≠ Except.error a) :
    attemptChannel permitted target k adapter =
      ((if permitted then (target.map (fun t => SendAction.mk k t)).toList else []),
       none) := by
  unfold attemptChannel
  cases permitted
  · simp
  · cases target with
    | none => simp
    | some t =>
      cases ha : adapter 0 with
      | ok o =>
        have := retryFrom_ok adapter 0 MAX_RETRIES BACKOFF_BASE_MS o ha
        simp [retryRun, this]
      | error err => exact absurd ha (h err)

/-- C6: the channel phase for a resolved (non-duplicate, known-user) event
always attempts every permitted-and-targeted channel regardless of any
provider failures (adapter failures are caught inside the adapters, so no
channel aborts another), and exactly one audit-record emission is attempted
afterwards, its flags recording which channels were *permitted*; further,
past a non-duplicate gate and a resolved user, `eachMessage` produces
exactly this trace. -/
theorem channel_isolation_audit (ch : ChannelEnv) (e : AnomalyEvent)
    (ctx : UserContext) :
    channelPhase ch e ctx =
      ⟨expectedSends e ctx, [auditOf e ctx],
        if ch.produceThrows then some "produce" else none⟩ ∧
    (∀ (denv : DedupEnv) (db : String → DbAnswer) (now : Nat) (cache : CacheState),
      (shouldSendAlert denv cache now (eventUserId e) (eventTxId e)).1 = true →
      getUserContext (db (eventUserId e)) = some ctx →
      (eachMessage denv db ch now cache e).2 = channelPhase ch e ctx) := by
  constructor
  · simp only [channelPhase]
    rw [attemptChannel_ok_eq _ _ _ _
        (fun a => sendEmailNotification_no_throw _ _ a),
      attemptChannel_ok_eq _ _ _ _
        (fun a => sendSmsNotification_no_throw _ _ _ a),
      attemptChannel_ok_eq _ _ _
        (fun i => sendWebhookNotification (ch.webhookNetworkFails i)
          (ch.webhookStatus i))
        (fun a => sendWebhookNotification_no_throw (ch.webhookNetworkFails 0)
          (ch.webhookStatus 0) a),
      attemptChannel_ok_eq _ _ _ _
        (fun a => makeCallNotification_no_throw _ _ a)]
    simp [expectedSends, auditOf]
  · intro denv db now cache hgate hctx
    simp [eachMessage, hgate, processAfterGate, hctx]

/-- C6 witness: a fully-resolved PRO user with failing providers still gets
all permitted channels attempted and one audit emission attempted. -/
theorem channel_isolation_audit_witness :
    channelPhase cEnvFailing eSample sampleCtx =
      ⟨expectedSends eSample sampleCtx, [auditOf eSample sampleCtx],
        if cEnvFailing.produceThrows then some "produce" else none⟩ ∧
    (eachMessage ⟨.ready, false⟩ (fun _ => .row sampleRow) cEnvFailing 0 ⟨[]⟩
        eSample).2 = channelPhase cEnvFailing eSample sampleCtx :=
  ⟨(channel_isolation_audit cEnvFailing eSample sampleCtx).1,
   (channel_isolation_audit cEnvFailing eSample sampleCtx).2
     ⟨.ready, false⟩ (fun _ => .row sampleRow) 0 ⟨[]⟩ rfl rfl⟩

/-! ## C7: webhook signature headers -/

/-- C7: the outbound webhook request carries `X-Webhook-Timestamp = T` and,
when a secret `S` is configured, `X-Webhook-Signature-Version = v1` and
`X-Webhook-Signature` equal to the hex HMAC-SHA256 of `"{T}.{B}"` keyed by
`S`; with no secret, the timestamp header is present and neither signature
header is. -/
theorem webhook_signature_headers (url B S T : String) :
    (webhookRequestOf url B (some S) T).headers.lookup "X-Webhook-Timestamp"
      = some T ∧
    (webhookRequestOf url B (some S) T).headers.lookup "X-Webhook-Signature-Version"
      = some "v1" ∧
    (webhookRequestOf url B (some S) T).headers.lookup "X-Webhook-Signature"
      = some (hmacSha256Hex S (T ++ "." ++ B)) ∧
    (webhookRequestOf url B none T).headers.lookup "X-Webhook-Timestamp"
      = some T ∧
    (webhookRequestOf url B none T).headers.lookup "X-Webhook-Signature"
      = none ∧
    (webhookRequestOf url B none T).headers.lookup "X-Webhook-Signature-Version"
      = none :=
  ⟨rfl, rfl, rfl, rfl, rfl, rfl⟩

/-! ## C8: transient delivery failures never reach the retry wrapper -/

/-- C8 (refuted by the code): each adapter catches a transient provider
failure internally and resolves successfully, so the surrounding `retry`
wrapper observes a success and invokes the operation exactly once — the
failure is never retried.  Evaluated at failing inputs: every provider call
fails, yet the wrapper performs one invocation and returns `ok`. -/
theorem transient_failure_not_retried :
    (retryRun (fun _ => sendWebhookNotification true 200)).2.1 = 1 ∧
    (retryRun (fun _ => sendWebhookNotification true 200)).1 =
        Except.ok SendOutcome.sendFailedLogged ∧
    (retryRun (fun _ => sendSmsNotification true true true)).2.1 = 1 ∧
    (retryRun (fun _ => sendSmsNotification true true true)).1 =
        Except.ok SendOutcome.sendFailedLogged ∧
    (retryRun (fun _ => makeCallNotification true true)).2.1 = 1 ∧
    (retryRun (fun _ => makeCallNotification true true)).1 =
        Except.ok SendOutcome.sendFailedLogged ∧
    (retryRun (fun _ => sendEmailNotification true true)).2.1 = 1 ∧
    (retryRun (fun _ => sendEmailNotification true true)).1 =
        Except.ok SendOutcome.sendFailedLogged :=
  ⟨rfl, rfl, rfl, rfl, rfl, rfl, rfl, rfl⟩

end Anomalyze
